import Mathlib

/-!
Verification development for the Git-training workspace-provisioning scripts
(`ex01_init_setup.py`, `ex06_merge_ff_setup.py`, `ex08_conflict_simple_setup.py`,
`ex09_conflict_complex_setup.py`, `ex15_remote_setup.py`, `ex16_push_setup.py`,
`ex17_pull_conflict_setup.py`).

The scripts are shallowly embedded as pure functions over an explicit world
state (`World`): a map from directory names to directory contents, where a
directory may carry a Git repository.  The external `git` binary, which the
scripts drive as a black-box subprocess, is modelled by a structural Git
object model (`Commit`, `GitRepo`) together with the porcelain operations the
scripts invoke (`init`, `add`, `commit`, `checkout`, `merge`, `clone`,
`clone --bare`, `push`); `git merge` is modelled by a diff3-style three-way
line merge (LCS alignment, `<<<<<<<`/`=======`/`>>>>>>>` marker insertion),
matching git's default conflict presentation.

Python-runtime behaviour relevant to the claims is part of the embedding:
`subprocess.run(..., check=True, capture_output=True)` raising
`CalledProcessError` on a non-zero exit is modelled by `Except`-style
propagation, `try`/`finally` cleanup is applied on both paths, an uncaught
exception terminates the process with exit status 1 and a traceback whose
final line is the `CalledProcessError` message (which names the command and
exit status but not the captured stderr).

Apostrophes, braces and quotes inside the embedded file contents are written
with `\x27`, `\x7b`, `\x7d` and `\"` escapes; the decoded strings are exactly
the strings the scripts build.
-/

/-! ## Association-list helpers -/

def alookup {α : Type} (k : String) : List (String × α) → Option α
  | [] => none
  | (k2, v) :: l => if k = k2 then some v else alookup k l

def aerase {α : Type} (k : String) (l : List (String × α)) : List (String × α) :=
  l.filter (fun p => p.1 != k)

def aset {α : Type} (k : String) (v : α) (l : List (String × α)) : List (String × α) :=
  (k, v) :: aerase k l

theorem alookup_aset_self {α : Type} (k : String) (v : α) (l : List (String × α)) :
    alookup k (aset k v l) = some v := by
  simp [aset, alookup]

theorem alookup_aerase_self {α : Type} (k : String) (l : List (String × α)) :
    alookup k (aerase k l) = none := by
  induction l with
  | nil => rfl
  | cons p l ih =>
    obtain ⟨a, v⟩ := p
    by_cases h : a = k
    · simpa [aerase, List.filter_cons, h] using ih
    · have hk : ¬ k = a := fun hk => h hk.symm
      simpa [aerase, List.filter_cons, bne_iff_ne.mpr h, alookup, hk] using ih

theorem alookup_aset_ne {α : Type} (k k2 : String) (v : α) (l : List (String × α))
    (h : k ≠ k2) : alookup k (aset k2 v l) = alookup k (aerase k2 l) := by
  simp [aset, alookup, h]

theorem alookup_aerase_ne {α : Type} (k k2 : String) (l : List (String × α))
    (h : k ≠ k2) : alookup k (aerase k2 l) = alookup k l := by
  induction l with
  | nil => rfl
  | cons p l ih =>
    obtain ⟨a, v⟩ := p
    by_cases hk : k = a
    · have hp : (a != k2) = true := bne_iff_ne.mpr (by rw [← hk]; exact h)
      simp [aerase, List.filter_cons, hp, alookup, hk]
    · by_cases h2 : a = k2
      · have hp : (a != k2) = false := by simp [h2]
        simpa [aerase, List.filter_cons, hp, alookup, hk] using ih
      · have hp : (a != k2) = true := bne_iff_ne.mpr h2
        simpa [aerase, List.filter_cons, hp, alookup, hk] using ih

/-! ## Kernel-computable string primitives

`String.splitOn`, `String.startsWith` and `String.<` from the core library are
defined by recursion over byte positions and do not reduce definitionally, so
the embedding uses structural recursion over the character lists instead. -/

def charsPrefix : List Char → List Char → Bool
  | [], _ => true
  | _ :: _, [] => false
  | d :: ds, c :: cs => c == d && charsPrefix ds cs

/-- `strStartsWith s t`: `t` is a prefix of `s`. -/
def strStartsWith (s t : String) : Bool := charsPrefix t.data s.data

def charsContains (needle : List Char) : List Char → Bool
  | [] => charsPrefix needle []
  | c :: cs => charsPrefix needle (c :: cs) || charsContains needle cs

def charsLt : List Char → List Char → Bool
  | [], [] => false
  | [], _ :: _ => true
  | _ :: _, [] => false
  | c :: cs, d :: ds =>
    if c = d then charsLt cs ds else decide (c.toNat < d.toNat)

/-- A strict total order on strings (code-point lexicographic), used only to
keep the model's trees canonically sorted. -/
def strLt (a b : String) : Bool := charsLt a.data b.data

/-! ## File contents as line lists

A file's byte content is represented by its exact decomposition into lines,
`content.split("\n")`: every builder in the scripts produces text ending in a
newline, so the representation always ends with a final `""` element, and
`String.intercalate "\n"` recovers the byte-identical content.  (This keeps
every comparison's definitional-reduction depth proportional to the number of
lines rather than the number of bytes.) -/

abbrev Content := List String

/-- The byte string a `Content` denotes. -/
def contentText (c : Content) : String := String.intercalate "\n" c

/-- `strContains s t` is true when `t` occurs as a contiguous substring of `s`. -/
def strContains (s t : String) : Bool := charsContains t.data s.data

/-- Number of conflict-marker blocks in a file: the count of lines that start
with the `<<<<<<<` opening marker, as a learner would count them. -/
def countConflictBlocks (c : Content) : Nat :=
  (c.filter (fun l => strStartsWith l "<<<<<<<")).length

/-! ## Sorted file trees: filename to content, kept sorted by filename -/

abbrev FsTree := List (String × Content)

def tset {α : Type} (k : String) (v : α) : List (String × α) → List (String × α)
  | [] => [(k, v)]
  | (k2, v2) :: t =>
    if k = k2 then (k, v) :: t
    else if strLt k k2 then (k, v) :: (k2, v2) :: t
    else (k2, v2) :: tset k v t

def nameInsert (k : String) : List String → List String
  | [] => [k]
  | k2 :: t =>
    if k = k2 then k2 :: t
    else if strLt k k2 then k :: k2 :: t
    else k2 :: nameInsert k t

/-- Sorted, deduplicated union of the filenames of several trees. -/
def keyUnion (ts : List FsTree) : List String :=
  ts.foldr (fun t acc => t.foldr (fun p acc2 => nameInsert p.1 acc2) acc) []

/-! ## LCS alignment

`lcsTable xs ys` is the table `L` with `L i j` = length of the longest common
subsequence of the suffixes `xs[i:]` and `ys[j:]`; row `i` is stored as a list
indexed by `j`.  `lcsMatch` recovers the canonical matching as a list of index
pairs, strictly increasing in both components. -/

def lcsRow (x : String) (ys : List String) (next : List Nat) : List Nat :=
  match ys, next with
  | [], _ => [0]
  | y :: ys2, nj :: next2 =>
    let rest := lcsRow x ys2 next2
    let cell :=
      if x == y then (next2.headD 0) + 1
      else max nj (rest.headD 0)
    cell :: rest
  | _ :: _, [] => [0]

def lcsTable (xs ys : List String) : List (List Nat) :=
  match xs with
  | [] => [List.replicate (ys.length + 1) 0]
  | x :: xs2 =>
    let t := lcsTable xs2 ys
    lcsRow x ys (t.headD []) :: t

def lcsWalk (fuel : Nat) (xs ys : List String) (rows : List (List Nat))
    (i j : Nat) : List (Nat × Nat) :=
  match fuel with
  | 0 => []
  | fuel + 1 =>
    match xs, rows with
    | x :: xs2, r0 :: rs =>
      if j < ys.length then
        let y := ys.getD j ""
        let r1 := rs.headD []
        if x == y && r0.getD j 0 == r1.getD (j + 1) 0 + 1 then
          (i, j) :: lcsWalk fuel xs2 ys rs (i + 1) (j + 1)
        else if r1.getD j 0 ≥ r0.getD (j + 1) 0 then
          lcsWalk fuel xs2 ys rs (i + 1) j
        else
          lcsWalk fuel (x :: xs2) ys (r0 :: rs) i (j + 1)
      else []
    | _, _ => []

/-- The canonical LCS matching between two lists of lines. -/
def lcsMatch (xs ys : List String) : List (Nat × Nat) :=
  lcsWalk (xs.length + ys.length + 1) xs ys (lcsTable xs ys) 0 0

def mfind (m : List (Nat × Nat)) (o : Nat) : Option Nat :=
  match m with
  | [] => none
  | (a, b) :: m2 => if a = o then some b else mfind m2 o

/-! ## diff3 three-way merge -/

/-- Length of the maximal stable run at `(lo, la, lb)`: consecutive base lines
matched, contiguously and in alignment, in both derived versions. -/
def stableLen (fuel : Nat) (mA mB : List (Nat × Nat)) (lo la lb : Nat) : Nat :=
  match fuel with
  | 0 => 0
  | fuel + 1 =>
    if mfind mA lo == some la && mfind mB lo == some lb then
      stableLen fuel mA mB (lo + 1) (la + 1) (lb + 1) + 1
    else 0

/-- The next base index at or after `o` that is matched in both versions. -/
def findSync (fuel : Nat) (mA mB : List (Nat × Nat)) (o : Nat) :
    Option (Nat × Nat × Nat) :=
  match fuel with
  | 0 => none
  | fuel + 1 =>
    match mfind mA o, mfind mB o with
    | some a, some b => some (o, a, b)
    | _, _ => findSync fuel mA mB (o + 1)

def lslice (l : List String) (lo hi : Nat) : List String :=
  (l.drop lo).take (hi - lo)

/-- Resolve one unstable chunk: takes the base/ours/theirs line runs and
returns the output lines plus whether the chunk is a conflict.  Conflicts are
rendered in git's default merge style. -/
def resolveChunk (co ca cb : List String) (label : String) :
    List String × Bool :=
  if ca == co then (cb, false)
  else if cb == co then (ca, false)
  else if ca == cb then (ca, false)
  else ("<<<<<<< HEAD" :: ca ++ "=======" :: cb ++ [">>>>>>> " ++ label], true)

def diff3Go (fuel : Nat) (O A B : List String) (mA mB : List (Nat × Nat))
    (lo la lb : Nat) (label : String) : List String × Nat :=
  match fuel with
  | 0 => ([], 0)
  | fuel + 1 =>
    if lo ≥ O.length && la ≥ A.length && lb ≥ B.length then ([], 0)
    else
      let k := stableLen (O.length + 1) mA mB lo la lb
      if k > 0 then
        let rest := diff3Go fuel O A B mA mB (lo + k) (la + k) (lb + k) label
        (lslice O lo (lo + k) ++ rest.1, rest.2)
      else
        match findSync (O.length + 1 - lo) mA mB lo with
        | some (o, a, b) =>
          let chunk := resolveChunk (lslice O lo o) (lslice A la a) (lslice B lb b) label
          let rest := diff3Go fuel O A B mA mB o a b label
          (chunk.1 ++ rest.1, (if chunk.2 then 1 else 0) + rest.2)
        | none =>
          let chunk := resolveChunk (O.drop lo) (A.drop la) (B.drop lb) label
          (chunk.1, if chunk.2 then 1 else 0)

/-- Three-way merge of whole file contents.  Returns the merged content and
the number of conflict chunks (`0` means the merge of this file is clean). -/
def diff3Merge (base ours theirs : Content) (label : String) : Content × Nat :=
  diff3Go (base.length + ours.length + theirs.length + 2) base ours theirs
    (lcsMatch base ours) (lcsMatch base theirs) 0 0 0 label

/-! ## Git object model

Commits are structural values (message, snapshot tree, parent commits),
mirroring git's content-addressed object model: two commits are "the same"
exactly when their whole histories coincide. -/

inductive Commit where
  | mk (msg : String) (tree : FsTree) (parents : List Commit)

def Commit.msg : Commit → String
  | .mk m _ _ => m

def Commit.tree : Commit → FsTree
  | .mk _ t _ => t

def Commit.parents : Commit → List Commit
  | .mk _ _ p => p

/-- Ample recursion fuel for walking commit histories: the scripts build
histories of at most four commits, so any bound beyond that is equivalent.
(Fuel keeps the recursion structural, hence kernel-computable.) -/
def commitFuel : Nat := 1000

def Commit.beqF : Nat → Commit → Commit → Bool
  | 0, _, _ => false
  | f + 1, .mk m1 t1 p1, .mk m2 t2 p2 =>
    m1 == m2 && t1 == t2 && p1.length == p2.length
      && (p1.zip p2).all (fun q => Commit.beqF f q.1 q.2)

/-- Structural equality of commits (git's object identity). -/
def Commit.beq (c d : Commit) : Bool := Commit.beqF commitFuel c d

def Commit.beqList (xs ys : List Commit) : Bool :=
  xs.length == ys.length && (xs.zip ys).all (fun q => Commit.beq q.1 q.2)

def Commit.selfAncestorsF : Nat → Commit → List Commit
  | 0, c => [c]
  | f + 1, .mk m t ps =>
    .mk m t ps :: ps.foldr (fun p acc => Commit.selfAncestorsF f p ++ acc) []

/-- The commit itself together with everything reachable through parents. -/
def Commit.selfAncestors (c : Commit) : List Commit :=
  Commit.selfAncestorsF commitFuel c

/-- `isAncestor a b`: `a` is reachable from `b` (reflexively). -/
def Commit.isAncestor (a b : Commit) : Bool :=
  (Commit.selfAncestors b).any (fun c => Commit.beq c a)

def dedupCommitsF : Nat → List Commit → List Commit
  | 0, _ => []
  | _ + 1, [] => []
  | f + 1, c :: cs => c :: dedupCommitsF f (cs.filter (fun d => !(Commit.beq c d)))

def dedupCommits (l : List Commit) : List Commit := dedupCommitsF l.length l

/-- Number of distinct commits reachable from `a` (history length). -/
def Commit.countHistory (a : Commit) : Nat :=
  (dedupCommits (Commit.selfAncestors a)).length

/-- Number of distinct commits reachable from `a` but not from `b`
(how far `a` is "ahead of" `b`). -/
def Commit.aheadCount (a b : Commit) : Nat :=
  ((dedupCommits (Commit.selfAncestors a)).filter
    (fun c => !(Commit.isAncestor c b))).length

/-- The merge bases of two commits: maximal common ancestors. -/
def Commit.mergeBases (a b : Commit) : List Commit :=
  let common := (dedupCommits (Commit.selfAncestors a)).filter
    (fun c => Commit.isAncestor c b)
  common.filter (fun c => common.all
    (fun d => Commit.beq c d || !(Commit.isAncestor c d)))

/-! ## Repositories and directories -/

/-- An index entry: a staged content, or an unmerged (conflicted) entry left
behind by a failed merge.  (The three conflict stages are not tracked,
only the unmerged status, which is what the scripts' contracts mention.) -/
inductive IndexEntry where
  | staged (content : Content)
  | unmerged

structure GitRepo where
  branches : List (String × Commit)
  headBranch : String
  index : List (String × IndexEntry)
  origin : Option String
  remoteTracking : List (String × Commit)
  bare : Bool

/-- A directory: its plain files plus, if `git init`ed or cloned, a repo. -/
structure RepoDir where
  tree : FsTree
  repo : Option GitRepo

def RepoDir.empty : RepoDir := ⟨[], none⟩

def RepoDir.writeFile (name : String) (content : Content) (rd : RepoDir) : RepoDir :=
  { rd with tree := tset name content rd.tree }

def stagedIndex (t : FsTree) : List (String × IndexEntry) :=
  t.map (fun p => (p.1, IndexEntry.staged p.2))

def indexToTree : List (String × IndexEntry) → Option FsTree
  | [] => some []
  | (n, IndexEntry.staged c) :: rest =>
    (indexToTree rest).map (fun t => (n, c) :: t)
  | (_, IndexEntry.unmerged) :: _ => none

/-- The paths whose index entries are unmerged (what `git status` reports as
"both modified" during an unresolved merge). -/
def GitRepo.unmergedPaths (r : GitRepo) : List String :=
  (r.index.filter (fun p =>
    match p.2 with
    | IndexEntry.unmerged => true
    | _ => false)).map Prod.fst

/-- The tip commit of the currently checked-out branch, if born. -/
def RepoDir.headTip (rd : RepoDir) : Option Commit :=
  match rd.repo with
  | none => none
  | some r => alookup r.headBranch r.branches

def RepoDir.branchTip (name : String) (rd : RepoDir) : Option Commit :=
  match rd.repo with
  | none => none
  | some r => alookup name r.branches

/-! ## Subprocess failures -/

/-- A non-zero exit of the external `git` subprocess: the command line, the
exit status and the captured stderr (`capture_output=True`). -/
structure GErr where
  cmd : List String
  returncode : Nat
  stderr : String

def pyListRepr (args : List String) : String :=
  "[" ++ String.intercalate ", " (args.map (fun a => "\x27" ++ a ++ "\x27")) ++ "]"

/-- The message of Python's `subprocess.CalledProcessError`: the last line of
the traceback a user sees when `check=True` fires with no handler.  It names
the command and the exit status; the captured stderr is stored on the
exception object but is not part of this message. -/
def calledProcessErrorStr (e : GErr) : String :=
  "Command \x27" ++ pyListRepr e.cmd ++ "\x27 returned non-zero exit status "
    ++ toString e.returncode ++ "."

/-! ## Porcelain operations used by the scripts -/

/-- `git init -b <branch>`.  In an existing repository this reinitialises and
succeeds without changing the model state. -/
def gitInit (branch : String) (rd : RepoDir) : RepoDir :=
  match rd.repo with
  | some _ => rd
  | none =>
    { rd with repo := some {
        branches := [], headBranch := branch, index := [],
        origin := none, remoteTracking := [], bare := false } }

/-- `git add .`: stage the whole working tree. -/
def gitAddAll (rd : RepoDir) : Except GErr RepoDir :=
  match rd.repo with
  | none => .error ⟨["git", "add", "."], 128,
      "fatal: not a git repository (or any of the parent directories): .git"⟩
  | some r => .ok { rd with repo := some { r with index := stagedIndex rd.tree } }

/-- `git add <name>`: stage one file. -/
def gitAdd (name : String) (rd : RepoDir) : Except GErr RepoDir :=
  match rd.repo with
  | none => .error ⟨["git", "add", name], 128,
      "fatal: not a git repository (or any of the parent directories): .git"⟩
  | some r =>
    match alookup name rd.tree with
    | some c => .ok { rd with repo := some {
          r with index := tset name (IndexEntry.staged c) r.index } }
    | none => .error ⟨["git", "add", name], 128,
        "fatal: pathspec \x27" ++ name ++ "\x27 did not match any files"⟩

/-- `git commit -m <msg>`.  Fails with status 1 when there is nothing to
commit (the staged tree equals the tip's tree); in that case git prints
"nothing to commit, working tree clean" on stdout and captured stderr is
empty. -/
def gitCommit (msg : String) (rd : RepoDir) : Except GErr RepoDir :=
  match rd.repo with
  | none => .error ⟨["git", "commit", "-m", msg], 128,
      "fatal: not a git repository (or any of the parent directories): .git"⟩
  | some r =>
    match indexToTree r.index with
    | none => .error ⟨["git", "commit", "-m", msg], 128,
        "error: Committing is not possible because you have unmerged files."⟩
    | some t =>
      match alookup r.headBranch r.branches with
      | some tip =>
        if t == tip.tree then .error ⟨["git", "commit", "-m", msg], 1, ""⟩
        else .ok { rd with repo := some {
            r with branches := aset r.headBranch (Commit.mk msg t [tip]) r.branches } }
      | none =>
        if t == ([] : FsTree) then .error ⟨["git", "commit", "-m", msg], 1, ""⟩
        else .ok { rd with repo := some {
            r with branches := aset r.headBranch (Commit.mk msg t []) r.branches } }

/-- `git checkout -b <name>`: create a branch at the current tip and switch
to it (on an unborn head it simply renames the unborn branch). -/
def gitCheckoutNew (name : String) (rd : RepoDir) : Except GErr RepoDir :=
  match rd.repo with
  | none => .error ⟨["git", "checkout", "-b", name], 128,
      "fatal: not a git repository (or any of the parent directories): .git"⟩
  | some r =>
    match alookup r.headBranch r.branches with
    | some tip => .ok { rd with repo := some {
          r with branches := aset name tip r.branches, headBranch := name } }
    | none => .ok { rd with repo := some { r with headBranch := name } }

/-- Working tree after switching from the tip tracking `oldTree` to
`newTree`: tracked files are replaced, untracked files are preserved. -/
def switchTree (oldTree newTree : FsTree) (work : FsTree) : FsTree :=
  let oldNames := oldTree.map Prod.fst
  let cleaned := work.filter (fun p => !(oldNames.contains p.1))
  newTree.foldl (fun acc p => tset p.1 p.2 acc) cleaned

/-- `git checkout <name>` with a clean index (the only way the scripts use
it): switch branch, update working tree and index to the target tree. -/
def gitCheckout (name : String) (rd : RepoDir) : Except GErr RepoDir :=
  match rd.repo with
  | none => .error ⟨["git", "checkout", name], 128,
      "fatal: not a git repository (or any of the parent directories): .git"⟩
  | some r =>
    match alookup name r.branches with
    | none => .error ⟨["git", "checkout", name], 1,
        "error: pathspec \x27" ++ name ++ "\x27 did not match any file(s) known to git"⟩
    | some target =>
      let oldTree :=
        match alookup r.headBranch r.branches with
        | some tip => tip.tree
        | none => []
      .ok { tree := switchTree oldTree target.tree rd.tree,
            repo := some { r with headBranch := name, index := stagedIndex target.tree } }

/-- Three-way merge of a single file (`none` = absent on that side). -/
def merge3file (b o t : Option Content) (label : String) : Option Content × Bool :=
  match o, t with
  | some oc, some tc =>
    if oc == tc then (some oc, false)
    else
      match b with
      | some bc =>
        if bc == oc then (some tc, false)
        else if bc == tc then (some oc, false)
        else
          let r := diff3Merge bc oc tc label
          (some r.1, r.2 > 0)
      | none =>
        let r := diff3Merge [] oc tc label
        (some r.1, r.2 > 0)
  | some oc, none =>
    match b with
    | some bc => if bc == oc then (none, false) else (some oc, true)
    | none => (some oc, false)
  | none, some tc =>
    match b with
    | some bc => if bc == tc then (none, false) else (some tc, true)
    | none => (some tc, false)
  | none, none => (none, false)

/-- Three-way merge of whole trees: resulting working tree, resulting index,
and the list of conflicted paths. -/
def merge3Trees (base ours theirs : FsTree) (label : String) :
    FsTree × List (String × IndexEntry) × List String :=
  (keyUnion [base, ours, theirs]).foldr
    (fun name acc =>
      let r := merge3file (alookup name base) (alookup name ours)
        (alookup name theirs) label
      let tree := match r.1 with
        | some c => (name, c) :: acc.1
        | none => acc.1
      let idx :=
        if r.2 then (name, IndexEntry.unmerged) :: acc.2.1
        else match r.1 with
          | some c => (name, IndexEntry.staged c) :: acc.2.1
          | none => acc.2.1
      let confl := if r.2 then name :: acc.2.2 else acc.2.2
      (tree, idx, confl))
    ([], [], [])

/-- Merge the commit `theirs` (label is what follows `>>>>>>>`) into the
current branch.  Returns the new directory state and whether the merge
succeeded; a conflicted merge mutates the working tree and leaves unmerged
index entries, exactly like `git merge`. -/
def mergeWithCommit (theirs : Commit) (label : String) (rd : RepoDir) :
    RepoDir × Bool :=
  match rd.repo with
  | none => (rd, false)
  | some r =>
    match alookup r.headBranch r.branches with
    | none => (rd, false)
    | some ours =>
      if Commit.isAncestor theirs ours then (rd, true)
      else if Commit.isAncestor ours theirs then
        let r2 := { r with branches := aset r.headBranch theirs r.branches,
                           index := stagedIndex theirs.tree }
        ({ tree := switchTree ours.tree theirs.tree rd.tree, repo := some r2 }, true)
      else
        let base :=
          match Commit.mergeBases ours theirs with
          | c :: _ => c.tree
          | [] => []
        let m := merge3Trees base ours.tree theirs.tree label
        if m.2.2.isEmpty then
          let mc := Commit.mk ("Merge " ++ label) m.1 [ours, theirs]
          let r2 := { r with branches := aset r.headBranch mc r.branches,
                             index := stagedIndex m.1 }
          ({ tree := switchTree ours.tree m.1 rd.tree, repo := some r2 }, true)
        else
          ({ tree := switchTree ours.tree m.1 rd.tree,
             repo := some { r with index := m.2.1 } }, false)

/-- `git merge <branch>`. -/
def gitMerge (otherName : String) (rd : RepoDir) : RepoDir × Bool :=
  match rd.repo with
  | none => (rd, false)
  | some r =>
    match alookup otherName r.branches with
    | none => (rd, false)
    | some theirs => mergeWithCommit theirs otherName rd

/-- Refuses when the destination exists and is not an empty directory, as
`git clone` does. -/
def cloneDstCheck (cmd : List String) (dstName : String)
    (dst : Option RepoDir) : Option GErr :=
  match dst with
  | none => none
  | some rd =>
    if rd.tree == ([] : FsTree) && rd.repo.isNone then none
    else some ⟨cmd, 128, "fatal: destination path \x27" ++ dstName
        ++ "\x27 already exists and is not an empty directory."⟩

/-- `git clone <src> <dst>`: check out the source's current branch, record
`origin` and the remote-tracking snapshot of the source's branches. -/
def gitClone (srcName dstName : String) (src : Option RepoDir)
    (dst : Option RepoDir) : Except GErr RepoDir :=
  let cmd := ["git", "clone", srcName, dstName]
  match cloneDstCheck cmd dstName dst with
  | some e => .error e
  | none =>
    match src with
    | none => .error ⟨cmd, 128,
        "fatal: repository \x27" ++ srcName ++ "\x27 does not exist"⟩
    | some srcRd =>
      match srcRd.repo with
      | none => .error ⟨cmd, 128,
          "fatal: repository \x27" ++ srcName ++ "\x27 does not exist"⟩
      | some sr =>
        match alookup sr.headBranch sr.branches with
        | some tip => .ok
            { tree := tip.tree,
              repo := some { branches := [(sr.headBranch, tip)],
                             headBranch := sr.headBranch,
                             index := stagedIndex tip.tree,
                             origin := some srcName,
                             remoteTracking := sr.branches, bare := false } }
        | none => .ok
            { tree := [],
              repo := some { branches := [], headBranch := sr.headBranch,
                             index := [], origin := some srcName,
                             remoteTracking := [], bare := false } }

/-- `git clone --bare <src> <dst>`: copy the refs, no working tree. -/
def gitCloneBare (srcName dstName : String) (src : Option RepoDir)
    (dst : Option RepoDir) : Except GErr RepoDir :=
  let cmd := ["git", "clone", "--bare", srcName, dstName]
  match cloneDstCheck cmd dstName dst with
  | some e => .error e
  | none =>
    match src with
    | none => .error ⟨cmd, 128,
        "fatal: repository \x27" ++ srcName ++ "\x27 does not exist"⟩
    | some srcRd =>
      match srcRd.repo with
      | none => .error ⟨cmd, 128,
          "fatal: repository \x27" ++ srcName ++ "\x27 does not exist"⟩
      | some sr => .ok
          { tree := [],
            repo := some { branches := sr.branches, headBranch := sr.headBranch,
                           index := [], origin := none,
                           remoteTracking := [], bare := true } }

/-- `git push` / `git push origin <branch>`: update the remote's ref if the
update is a fast-forward; a non-fast-forward push is rejected (git never
rewrites remote history without `--force`). -/
def gitPush (branch : Option String) (rd : RepoDir) (remote : RepoDir) :
    Except GErr RepoDir :=
  let cmd := match branch with
    | some b => ["git", "push", "origin", b]
    | none => ["git", "push"]
  match rd.repo with
  | none => .error ⟨cmd, 128,
      "fatal: not a git repository (or any of the parent directories): .git"⟩
  | some r =>
    let b := branch.getD r.headBranch
    match alookup b r.branches with
    | none => .error ⟨cmd, 1,
        "error: src refspec " ++ b ++ " does not match any"⟩
    | some tip =>
      match remote.repo with
      | none => .error ⟨cmd, 128, "fatal: not a git repository"⟩
      | some rr =>
        match alookup b rr.branches with
        | none => .ok { remote with repo := some {
              rr with branches := aset b tip rr.branches } }
        | some rtip =>
          if Commit.isAncestor rtip tip then
            .ok { remote with repo := some {
                rr with branches := aset b tip rr.branches } }
          else .error ⟨cmd, 1,
            "! [rejected]  " ++ b ++ " -> " ++ b ++ " (fetch first)"⟩

/-- `git pull` with `origin`'s current state: fetch the remote's refs into
the remote-tracking snapshot, then merge the remote's current branch.  On
divergence with overlapping edits this leaves the same conflicted state as
`git merge`. -/
def gitPull (remote : RepoDir) (rd : RepoDir) : RepoDir × Bool :=
  match rd.repo, remote.repo with
  | some r, some rr =>
    let rd2 := { rd with repo := some { r with remoteTracking := rr.branches } }
    match alookup rr.headBranch rr.branches with
    | none => (rd2, false)
    | some theirs => mergeWithCommit theirs ("origin/" ++ rr.headBranch) rd2
  | _, _ => (rd, false)

/-! ## Worlds and process outcomes -/

/-- The on-disk state the scripts manipulate: the exercise directories that
currently exist (all are siblings of the scripts), each with its contents. -/
structure World where
  dirs : List (String × RepoDir)

def World.empty : World := ⟨[]⟩

def World.get (w : World) (d : String) : Option RepoDir := alookup d w.dirs

def World.set (w : World) (d : String) (rd : RepoDir) : World := ⟨aset d rd w.dirs⟩

def World.removeDir (w : World) (d : String) : World := ⟨aerase d w.dirs⟩

def World.hasDir (w : World) (d : String) : Bool := (w.get d).isSome

/-- How one invocation of a script's process ends: normal return (exit 0),
an explicit `sys.exit`, or an uncaught `CalledProcessError` (the interpreter
prints a traceback and exits with status 1). -/
inductive RunOutcome where
  | ok (w : World)
  | exited (code : Nat) (w : World)
  | crashed (e : GErr) (w : World)

def RunOutcome.exitCode : RunOutcome → Nat
  | .ok _ => 0
  | .exited c _ => c
  | .crashed _ _ => 1

def RunOutcome.world : RunOutcome → World
  | .ok w => w
  | .exited _ w => w
  | .crashed _ w => w

/-- The diagnostic surfaced to the user when the run crashed (the
`CalledProcessError` line of the traceback); `none` otherwise. -/
def RunOutcome.diagnostic : RunOutcome → Option String
  | .crashed e _ => some (calledProcessErrorStr e)
  | _ => none

/-- The captured stderr carried by the exception of a crashed run. -/
def RunOutcome.capturedStderr : RunOutcome → Option String
  | .crashed e _ => some e.stderr
  | _ => none

/-! ## File contents built by the scripts (exact transcriptions, one
element per line of the built text; the final `\"\"` is the trailing newline) -/

def Ex01.build_readme_content : Content :=
  [ "# 🚀 Exercice : Mon premier commit",
    "",
    "## 🎯 Objectif",
    "Initialiser un dépôt Git, suivre le fichier README.md et créer votre premier commit.",
    "",
    "## 📋 Étapes à suivre",
    "",
    "1. **Initialiser le dépôt** : `git init`",
    "2. **Vérifier l\x27état** : `git status` (README.md doit apparaître en rouge)",
    "3. **Ajouter le fichier** : `git add README.md`",
    "4. **Créer le commit** : `git commit -m \"Mon premier commit\"`",
    "5. **Consulter l\x27historique** : `git log`",
    "",
    "💡 **Astuce** : Utilisez `git status` après chaque commande pour observer les changements !",
    ""]

def Ex06.build_index_html_base : Content :=
  [ "<!DOCTYPE html>",
    "<html lang=\"fr\">",
    "<head>",
    "    <meta charset=\"UTF-8\">",
    "    <meta name=\"viewport\" content=\"width=device-width, initial-scale=1.0\">",
    "    <title>Mon site</title>",
    "    <style>",
    "        body \x7b font-family: Arial, sans-serif; margin: 0; padding: 2rem; \x7d",
    "        main \x7b max-width: 800px; margin: 0 auto; \x7d",
    "    </style>",
    "</head>",
    "<body>",
    "    <main>",
    "        <h1>Bienvenue sur mon site</h1>",
    "        <p>Contenu principal de la page.</p>",
    "    </main>",
    "</body>",
    "</html>",
    ""]

def Ex06.build_index_html_with_footer : Content :=
  [ "<!DOCTYPE html>",
    "<html lang=\"fr\">",
    "<head>",
    "    <meta charset=\"UTF-8\">",
    "    <meta name=\"viewport\" content=\"width=device-width, initial-scale=1.0\">",
    "    <title>Mon site</title>",
    "    <style>",
    "        body \x7b font-family: Arial, sans-serif; margin: 0; padding: 2rem; \x7d",
    "        main \x7b max-width: 800px; margin: 0 auto; \x7d",
    "        footer \x7b margin-top: 3rem; padding: 1rem; background: #333; color: white; text-align: center; \x7d",
    "    </style>",
    "</head>",
    "<body>",
    "    <main>",
    "        <h1>Bienvenue sur mon site</h1>",
    "        <p>Contenu principal de la page.</p>",
    "    </main>",
    "    <footer>",
    "        <p>&copy; 2025 Mon Site. Tous droits réservés.</p>",
    "    </footer>",
    "</body>",
    "</html>",
    ""]

def Ex06.build_readme_content : Content :=
  [ "# ⚡ Exercice : Merge fast-forward",
    "",
    "## 🎯 Objectif",
    "Comprendre le merge fast-forward, le cas le plus simple de fusion.",
    "",
    "## 📁 État initial",
    "- Branche `main` avec un commit initial",
    "- Branche `feature-footer` avec un commit supplémentaire (ajout d\x27un footer)",
    "- `main` n\x27a PAS de nouveaux commits depuis la création de `feature-footer`",
    "",
    "## 📋 Étapes à suivre",
    "",
    "1. **Observer l\x27état initial** :",
    "   - Listez les branches",
    "   - Consultez l\x27historique de chaque branche",
    "",
    "2. **Se placer sur main** : Assurez-vous d\x27être sur la branche `main`",
    "",
    "3. **Fusionner feature-footer** : Intégrez la branche `feature-footer` dans `main`",
    "",
    "4. **Observer le résultat** :",
    "   - Consultez l\x27historique après le merge",
    "   - Notez qu\x27il n\x27y a PAS de commit de merge supplémentaire",
    "",
    "## 💡 Astuces",
    "- Un merge fast-forward se produit quand la branche cible n\x27a pas divergé",
    "- Git \"avance\" simplement le pointeur de la branche",
    "- L\x27historique reste linéaire",
    "",
    "## 🔑 Concepts clés",
    "- **Fast-forward** : avance rapide du pointeur de branche",
    "- Pas de commit de merge créé",
    "- Historique linéaire conservé",
    ""]

def Ex08.build_message_base : Content :=
  [ "Bienvenue sur notre application !",
    "",
    "Notre slogan : Nous rendons votre vie plus simple.",
    "",
    "Merci de votre confiance.",
    ""]

def Ex08.build_message_client : Content :=
  [ "Bienvenue sur notre application !",
    "",
    "Notre slogan : La simplicité au service de nos clients.",
    "",
    "Merci de votre confiance.",
    ""]

def Ex08.build_message_interne : Content :=
  [ "Bienvenue sur notre application !",
    "",
    "Notre slogan : L\x27innovation au cœur de notre mission.",
    "",
    "Merci de votre confiance.",
    ""]

def Ex08.build_readme_content : Content :=
  [ "# ⚔️ Exercice : Résoudre un conflit simple",
    "",
    "## 🎯 Objectif",
    "Apprendre à résoudre un conflit trivial sur une seule ligne.",
    "",
    "## 📁 État initial",
    "- Branche `main` avec `message.txt` contenant un slogan original",
    "- Branche `version-client` modifie le slogan d\x27une façon",
    "- Branche `version-interne` modifie le slogan d\x27une autre façon",
    "- Vous êtes sur `version-client` et un merge de `version-interne` a été tenté → CONFLIT !",
    "",
    "## 📋 Étapes à suivre",
    "",
    "1. **Observer le conflit** : Vérifiez l\x27état du dépôt",
    "",
    "2. **Analyser le fichier** : Ouvrez `message.txt` et repérez les marqueurs de conflit :",
    "   ```",
    "   <<<<<<< HEAD",
    "   (votre version actuelle)",
    "   =======",
    "   (la version entrante)",
    "   >>>>>>> version-interne",
    "   ```",
    "",
    "3. **Résoudre le conflit** :",
    "   - Choisissez UNE des deux versions, OU",
    "   - Combinez les deux pour créer un nouveau slogan",
    "",
    "4. **Supprimer les marqueurs** : Effacez les lignes `<<<<<<<`, `=======` et `>>>>>>>`",
    "",
    "5. **Finaliser le merge** :",
    "   - Ajoutez le fichier résolu à l\x27index",
    "   - Créez le commit de merge",
    "",
    "## 💡 Astuces",
    "- Les marqueurs de conflit sont du TEXTE ajouté par Git",
    "- Vous devez les supprimer manuellement",
    "- Testez que le fichier final est cohérent avant de commiter",
    "",
    "## 🔑 Concepts clés",
    "- Marqueurs de conflit : `<<<<<<<`, `=======`, `>>>>>>>`",
    "- Résolution manuelle des conflits",
    "- `git add` pour marquer un conflit comme résolu",
    ""]

def Ex09.build_page_html_base : Content :=
  [ "<!DOCTYPE html>",
    "<html lang=\"fr\">",
    "<head>",
    "    <meta charset=\"UTF-8\">",
    "    <title>Ma Page</title>",
    "    <style>",
    "        body \x7b font-family: Arial, sans-serif; margin: 0; \x7d",
    "        header \x7b padding: 1rem; background: #eee; \x7d",
    "        main \x7b padding: 2rem; \x7d",
    "        footer \x7b padding: 1rem; background: #eee; \x7d",
    "    </style>",
    "</head>",
    "<body>",
    "    <header>",
    "        <h1>Titre du site</h1>",
    "    </header>",
    "    <main>",
    "        <p>Contenu principal de la page.</p>",
    "    </main>",
    "    <footer>",
    "        <p>Pied de page</p>",
    "    </footer>",
    "</body>",
    "</html>",
    ""]

def Ex09.build_page_html_design_v1 : Content :=
  [ "<!DOCTYPE html>",
    "<html lang=\"fr\">",
    "<head>",
    "    <meta charset=\"UTF-8\">",
    "    <title>Ma Page</title>",
    "    <style>",
    "        body \x7b font-family: Arial, sans-serif; margin: 0; \x7d",
    "        header \x7b padding: 1rem; background: #eee; \x7d",
    "        main \x7b padding: 2rem; \x7d",
    "        footer \x7b padding: 1rem; background: #eee; \x7d",
    "    </style>",
    "</head>",
    "<body>",
    "    <header>",
    "        <h1>🚀 Site Moderne</h1>",
    "        <nav>",
    "            <a href=\"#accueil\">Accueil</a>",
    "            <a href=\"#services\">Services</a>",
    "        </nav>",
    "    </header>",
    "    <main>",
    "        <p>Contenu principal de la page.</p>",
    "    </main>",
    "    <footer>",
    "        <p>© 2025 Site Moderne - Design V1</p>",
    "        <p>Suivez-nous sur les réseaux sociaux</p>",
    "    </footer>",
    "</body>",
    "</html>",
    ""]

def Ex09.build_page_html_design_v2 : Content :=
  [ "<!DOCTYPE html>",
    "<html lang=\"fr\">",
    "<head>",
    "    <meta charset=\"UTF-8\">",
    "    <title>Ma Page</title>",
    "    <style>",
    "        body \x7b font-family: Arial, sans-serif; margin: 0; \x7d",
    "        header \x7b padding: 1rem; background: #eee; \x7d",
    "        main \x7b padding: 2rem; \x7d",
    "        footer \x7b padding: 1rem; background: #eee; \x7d",
    "    </style>",
    "</head>",
    "<body>",
    "    <header>",
    "        <h1>Entreprise Corporate</h1>",
    "        <p class=\"tagline\">Votre partenaire de confiance depuis 1990</p>",
    "    </header>",
    "    <main>",
    "        <p>Contenu principal de la page.</p>",
    "    </main>",
    "    <footer>",
    "        <p>Entreprise Corporate SARL - Mentions légales</p>",
    "        <p>Contact : contact@corporate.fr</p>",
    "    </footer>",
    "</body>",
    "</html>",
    ""]

def Ex09.build_readme_content : Content :=
  [ "# 🔥 Exercice : Conflits multiples",
    "",
    "## 🎯 Objectif",
    "Résoudre un conflit impliquant PLUSIEURS sections d\x27un même fichier.",
    "",
    "## 📁 État initial",
    "- Branche `design-v1` modifie le header ET le footer (style moderne avec emojis)",
    "- Branche `design-v2` modifie aussi le header ET le footer (style corporate)",
    "- Un merge a été tenté → CONFLITS MULTIPLES dans `page.html`",
    "",
    "## 📊 Visualisation des conflits",
    "```",
    "page.html contient 2 blocs en conflit :",
    "- CONFLIT 1 : dans le <header>",
    "- CONFLIT 2 : dans le <footer>",
    "```",
    "",
    "## 📋 Étapes à suivre",
    "",
    "1. **Identifier les conflits** :",
    "   - Ouvrez `page.html`",
    "   - Comptez le nombre de blocs `<<<<<<<` ... `>>>>>>>`",
    "",
    "2. **Résoudre chaque bloc** :",
    "   - Pour le header : choisissez un style ou combinez les deux",
    "   - Pour le footer : idem",
    "",
    "3. **Vérifier la cohérence** :",
    "   - Le HTML doit rester valide",
    "   - Le style doit être cohérent (ne pas mélanger moderne et corporate)",
    "",
    "4. **Finaliser le merge** :",
    "   - Ajoutez le fichier résolu",
    "   - Créez le commit de merge",
    "",
    "## 💡 Astuces",
    "- Traitez les conflits UN PAR UN, de haut en bas",
    "- Gardez une vision globale : le résultat doit être cohérent",
    "- Vous pouvez créer une TROISIÈME version qui combine le meilleur des deux",
    "",
    "## 🔑 Concepts clés",
    "- Conflits multiples dans un même fichier",
    "- Stratégie de résolution cohérente",
    "- Importance de tester le résultat final",
    ""]

def Ex15.build_readme_content : Content :=
  [ "# Projet Partagé",
    "",
    "Ce projet est partagé via un dépôt distant.",
    "",
    "## Installation",
    "1. Cloner le dépôt",
    "2. Installer les dépendances",
    "3. Lancer l\x27application",
    ""]

def Ex15.build_readme_updated : Content :=
  [ "# Projet Partagé",
    "",
    "Ce projet est partagé via un dépôt distant.",
    "",
    "## Installation",
    "1. Cloner le dépôt",
    "2. Installer les dépendances",
    "3. Lancer l\x27application",
    "",
    "## Nouveautés v1.1",
    "- Correction de bugs importants",
    "- Amélioration des performances",
    "- Nouvelle documentation",
    ""]

def Ex15.build_exercise_readme : Content :=
  [ "# 🌐 Exercice : Travailler avec un dépôt distant",
    "",
    "## 🎯 Objectif",
    "Comprendre les notions de remote, fetch et pull.",
    "",
    "## 📁 État initial",
    "- Un dépôt \"distant\" simulé : `remote-repo.git` (dépôt bare)",
    "- Votre copie locale : `ex15-remote` (clone du dépôt distant)",
    "- Le remote est configuré sous le nom `origin`",
    "",
    "## 📋 Étapes à suivre",
    "",
    "### Partie 1 : Explorer la configuration",
    "1. **Vérifier les remotes** : `git remote -v`",
    "2. **Voir les branches distantes** : `git branch -a`",
    "",
    "### Partie 2 : Simuler une mise à jour distante",
    "3. Relancez le script avec `--update` pour simuler un push d\x27un collègue",
    "4. Votre dépôt local ne \"sait\" pas encore qu\x27il y a du nouveau !",
    "",
    "### Partie 3 : Récupérer les changements",
    "5. **Fetch** : Téléchargez les infos du distant sans modifier vos fichiers",
    "6. **Observer** : Comparez votre branche locale avec `origin/main`",
    "7. **Pull** : Intégrez les changements dans votre branche",
    "",
    "### Partie 4 : Vérifier",
    "8. Consultez l\x27historique pour voir le nouveau commit",
    "9. Vérifiez le contenu du README mis à jour",
    "",
    "## 💡 Astuces",
    "- `git fetch` télécharge sans modifier votre code",
    "- `git pull` = `git fetch` + `git merge`",
    "- `git log origin/main` pour voir l\x27état du distant",
    "",
    "## 🔑 Concepts clés",
    "- `git remote -v` : lister les dépôts distants",
    "- `git fetch` : télécharger sans fusionner",
    "- `git pull` : télécharger ET fusionner",
    "- Branches de suivi (tracking branches) : `origin/main`",
    ""]

def Ex17.build_config_base : Content :=
  [ "\x7b",
    "    \"app\": \x7b",
    "        \"name\": \"MonApplication\",",
    "        \"version\": \"1.0.0\",",
    "        \"environment\": \"development\"",
    "    \x7d,",
    "    \"database\": \x7b",
    "        \"host\": \"localhost\",",
    "        \"port\": 5432",
    "    \x7d",
    "\x7d",
    ""]

def Ex17.build_config_remote : Content :=
  [ "\x7b",
    "    \"app\": \x7b",
    "        \"name\": \"MonApplication\",",
    "        \"version\": \"1.1.0\",",
    "        \"environment\": \"production\"",
    "    \x7d,",
    "    \"database\": \x7b",
    "        \"host\": \"db.production.com\",",
    "        \"port\": 5432",
    "    \x7d",
    "\x7d",
    ""]

def Ex17.build_config_local : Content :=
  [ "\x7b",
    "    \"app\": \x7b",
    "        \"name\": \"MonApplication\",",
    "        \"version\": \"1.0.1\",",
    "        \"environment\": \"staging\"",
    "    \x7d,",
    "    \"database\": \x7b",
    "        \"host\": \"localhost\",",
    "        \"port\": 5432",
    "    \x7d",
    "\x7d",
    ""]

def Ex17.build_readme_content : Content :=
  [ "# ⚔️ Exercice : Conflit lors d\x27un pull",
    "",
    "## 🎯 Objectif",
    "Comprendre et résoudre un conflit entre modifications locales et distantes.",
    "",
    "## 📁 État initial",
    "- Un commit a été poussé sur `origin/main` (par un collègue)",
    "- Vous avez aussi modifié `config.json` localement et commité",
    "- Les deux modifications touchent les MÊMES lignes → CONFLIT !",
    "",
    "## 📊 Situation",
    "```",
    "origin/main:  A --- B (version 1.1.0, production)",
    "               \\",
    "local main:    A --- C (version 1.0.1, staging)",
    "```",
    "",
    "## 📋 Étapes à suivre",
    "",
    "1. **Observer l\x27état** :",
    "   - `git status` : votre branche est \"ahead\" de origin",
    "   - `git log --oneline origin/main` vs `git log --oneline`",
    "",
    "2. **Tenter un pull** :",
    "   - `git pull` va échouer avec un conflit",
    "",
    "3. **Analyser le conflit** :",
    "   - Ouvrez `config.json`",
    "   - Repérez les marqueurs de conflit",
    "",
    "4. **Résoudre le conflit** :",
    "   - Choisissez les bonnes valeurs (ou combinez)",
    "   - Supprimez les marqueurs",
    "",
    "5. **Finaliser le merge** :",
    "   - `git add config.json`",
    "   - `git commit` (message de merge auto-généré)",
    "",
    "6. **Vérifier** :",
    "   - `git log --oneline --graph` : voir les deux parents du merge",
    "",
    "## 💡 Astuces",
    "- `git pull` = `git fetch` + `git merge`",
    "- Vous pouvez utiliser `git pull --rebase` pour rebaser au lieu de merger",
    "- En cas d\x27abandon : `git merge --abort`",
    "",
    "## 🔑 Concepts clés",
    "- Conflit de pull : quand local et distant ont divergé",
    "- Résolution identique à un conflit de merge classique",
    "- Importance de `git fetch` pour voir l\x27état avant d\x27agir",
    ""]

/-! ## Shared guard loop

`ex15`, `ex16` and `ex17` all carry the same `reset_dirs` loop: for each
guarded directory in order, check existence, abort without `--force`, delete
with it.  The instrumented version also returns the event trace (checks and
deletions in program order); `none` models `sys.exit(1)`. -/

inductive GuardEvent where
  | check (dir : String) (existed : Bool)
  | rmtree (dir : String)
deriving DecidableEq, Repr

def reset_dirs_loop (names : List String) (force : Bool) (w : World) :
    List GuardEvent × Option World :=
  match names with
  | [] => ([], some w)
  | d :: rest =>
    let ex := w.hasDir d
    if ex then
      if !force then ([GuardEvent.check d true], none)
      else
        let r := reset_dirs_loop rest force (w.removeDir d)
        (GuardEvent.check d true :: GuardEvent.rmtree d :: r.1, r.2)
    else
      let r := reset_dirs_loop rest force w
      (GuardEvent.check d false :: r.1, r.2)

/-- Lift a git-step result into a failure that also records the state the
failure leaves behind (what `CalledProcessError` propagation leaves on disk,
after any `finally` cleanup). -/
def withFail {α β : Type} (ctx : α) (r : Except GErr β) : Except (GErr × α) β :=
  match r with
  | .ok x => .ok x
  | .error e => .error (e, ctx)

/-! ## ex01_init_setup.py -/

namespace Ex01

def EXERCISE_DIR : String := "ex01-init"

def reset_exercise_dir (force : Bool) (w : World) : Option World :=
  match w.get EXERCISE_DIR with
  | some _ =>
    if !force then none
    else some ((w.removeDir EXERCISE_DIR).set EXERCISE_DIR RepoDir.empty)
  | none => some (w.set EXERCISE_DIR RepoDir.empty)

def write_readme (w : World) : World :=
  match w.get EXERCISE_DIR with
  | some rd => w.set EXERCISE_DIR (rd.writeFile "README.md" build_readme_content)
  | none => w

def main (force : Bool) (w : World) : RunOutcome :=
  match reset_exercise_dir force w with
  | none => RunOutcome.exited 1 w
  | some w1 => RunOutcome.ok (write_readme w1)

end Ex01

/-! ## ex06_merge_ff_setup.py -/

namespace Ex06

def EXERCISE_DIR : String := "ex06-merge-ff"

def reset_exercise_dir (force : Bool) (w : World) : Option World :=
  match w.get EXERCISE_DIR with
  | some _ =>
    if !force then none
    else some ((w.removeDir EXERCISE_DIR).set EXERCISE_DIR RepoDir.empty)
  | none => some (w.set EXERCISE_DIR RepoDir.empty)

def setup_git_repo (rd0 : RepoDir) : Except (GErr × RepoDir) RepoDir := do
  let rd := rd0.writeFile "README.md" build_readme_content
  let rd := rd.writeFile "index.html" build_index_html_base
  let rd := gitInit "main" rd
  let rd ← withFail rd (gitAddAll rd)
  let rd ← withFail rd (gitCommit "Initial commit : page de base" rd)
  let rd ← withFail rd (gitCheckoutNew "feature-footer" rd)
  let rd := rd.writeFile "index.html" build_index_html_with_footer
  let rd ← withFail rd (gitAdd "index.html" rd)
  let rd ← withFail rd (gitCommit "Ajout du footer" rd)
  let rd ← withFail rd (gitCheckout "main" rd)
  return rd

def main (force : Bool) (w : World) : RunOutcome :=
  match reset_exercise_dir force w with
  | none => RunOutcome.exited 1 w
  | some w1 =>
    match setup_git_repo ((w1.get EXERCISE_DIR).getD RepoDir.empty) with
    | .error (e, rd) => RunOutcome.crashed e (w1.set EXERCISE_DIR rd)
    | .ok rd => RunOutcome.ok (w1.set EXERCISE_DIR rd)

end Ex06

/-! ## ex08_conflict_simple_setup.py -/

namespace Ex08

def EXERCISE_DIR : String := "ex08-conflict-simple"

def reset_exercise_dir (force : Bool) (w : World) : Option World :=
  match w.get EXERCISE_DIR with
  | some _ =>
    if !force then none
    else some ((w.removeDir EXERCISE_DIR).set EXERCISE_DIR RepoDir.empty)
  | none => some (w.set EXERCISE_DIR RepoDir.empty)

def setup_git_repo (rd0 : RepoDir) : Except (GErr × RepoDir) RepoDir := do
  let rd := rd0.writeFile "README.md" build_readme_content
  let rd := rd.writeFile "message.txt" build_message_base
  let rd := gitInit "main" rd
  let rd ← withFail rd (gitAddAll rd)
  let rd ← withFail rd (gitCommit "Initial commit : message de base" rd)
  let rd ← withFail rd (gitCheckoutNew "version-client" rd)
  let rd := rd.writeFile "message.txt" build_message_client
  let rd ← withFail rd (gitAdd "message.txt" rd)
  let rd ← withFail rd (gitCommit "Slogan orienté client" rd)
  let rd ← withFail rd (gitCheckout "main" rd)
  let rd ← withFail rd (gitCheckoutNew "version-interne" rd)
  let rd := rd.writeFile "message.txt" build_message_interne
  let rd ← withFail rd (gitAdd "message.txt" rd)
  let rd ← withFail rd (gitCommit "Slogan orienté innovation" rd)
  let rd ← withFail rd (gitCheckout "version-client" rd)
  let rd := (gitMerge "version-interne" rd).1
  return rd

def main (force : Bool) (w : World) : RunOutcome :=
  match reset_exercise_dir force w with
  | none => RunOutcome.exited 1 w
  | some w1 =>
    match setup_git_repo ((w1.get EXERCISE_DIR).getD RepoDir.empty) with
    | .error (e, rd) => RunOutcome.crashed e (w1.set EXERCISE_DIR rd)
    | .ok rd => RunOutcome.ok (w1.set EXERCISE_DIR rd)

end Ex08

/-! ## ex09_conflict_complex_setup.py -/

namespace Ex09

def EXERCISE_DIR : String := "ex09-conflict-complex"

def reset_exercise_dir (force : Bool) (w : World) : Option World :=
  match w.get EXERCISE_DIR with
  | some _ =>
    if !force then none
    else some ((w.removeDir EXERCISE_DIR).set EXERCISE_DIR RepoDir.empty)
  | none => some (w.set EXERCISE_DIR RepoDir.empty)

def setup_git_repo (rd0 : RepoDir) : Except (GErr × RepoDir) RepoDir := do
  let rd := rd0.writeFile "README.md" build_readme_content
  let rd := rd.writeFile "page.html" build_page_html_base
  let rd := gitInit "main" rd
  let rd ← withFail rd (gitAddAll rd)
  let rd ← withFail rd (gitCommit "Initial commit : page de base" rd)
  let rd ← withFail rd (gitCheckoutNew "design-v1" rd)
  let rd := rd.writeFile "page.html" build_page_html_design_v1
  let rd ← withFail rd (gitAdd "page.html" rd)
  let rd ← withFail rd (gitCommit "Design moderne avec navigation et réseaux sociaux" rd)
  let rd ← withFail rd (gitCheckout "main" rd)
  let rd ← withFail rd (gitCheckoutNew "design-v2" rd)
  let rd := rd.writeFile "page.html" build_page_html_design_v2
  let rd ← withFail rd (gitAdd "page.html" rd)
  let rd ← withFail rd (gitCommit "Design corporate avec tagline et contact" rd)
  let rd ← withFail rd (gitCheckout "design-v1" rd)
  let rd := (gitMerge "design-v2" rd).1
  return rd

def main (force : Bool) (w : World) : RunOutcome :=
  match reset_exercise_dir force w with
  | none => RunOutcome.exited 1 w
  | some w1 =>
    match setup_git_repo ((w1.get EXERCISE_DIR).getD RepoDir.empty) with
    | .error (e, rd) => RunOutcome.crashed e (w1.set EXERCISE_DIR rd)
    | .ok rd => RunOutcome.ok (w1.set EXERCISE_DIR rd)

end Ex09

/-! ## ex15_remote_setup.py -/

namespace Ex15

def REMOTE_REPO : String := "remote-repo.git"
def EXERCISE_DIR : String := "ex15-remote"
def TEMP_INIT : String := "_temp_init"
def TEMP_PUSH : String := "_temp_push"

def reset_dirs (force : Bool) (w : World) : Option World :=
  (reset_dirs_loop [REMOTE_REPO, EXERCISE_DIR] force w).2

/-- The temp seed repository is built with `mkdir(exist_ok=True)` (a leftover
`_temp_init` is reused as-is) and removed again in the `finally` block, on the
success and on the failure path alike. -/
def setup_remote_repo (w : World) : Except (GErr × World) World := do
  let temp0 := (w.get TEMP_INIT).getD RepoDir.empty
  let wf := w.removeDir TEMP_INIT
  let t := gitInit "main" temp0
  let t := t.writeFile "README.md" build_readme_content
  let t ← withFail wf (gitAddAll t)
  let t ← withFail wf (gitCommit "Initial commit : projet partagé" t)
  let bare ← withFail wf (gitCloneBare TEMP_INIT REMOTE_REPO (some t) (wf.get REMOTE_REPO))
  return wf.set REMOTE_REPO bare

def setup_local_clone (w : World) : Except (GErr × World) World := do
  let rd ← withFail w (gitClone REMOTE_REPO EXERCISE_DIR (w.get REMOTE_REPO) (w.get EXERCISE_DIR))
  let rd := rd.writeFile "EXERCICE.md" build_exercise_readme
  let rd ← withFail (w.set EXERCISE_DIR rd) (gitAdd "EXERCICE.md" rd)
  let rd ← withFail (w.set EXERCISE_DIR rd) (gitCommit "Ajout des consignes de l\x27exercice" rd)
  return w.set EXERCISE_DIR rd

def simulate_update_steps (w1 : World) (remoteRd : RepoDir) :
    Except (GErr × World) World := do
  let t ← withFail w1 (gitClone REMOTE_REPO TEMP_PUSH (some remoteRd) (w1.get TEMP_PUSH))
  let t := t.writeFile "README.md" build_readme_updated
  let t ← withFail w1 (gitAdd "README.md" t)
  let t ← withFail w1 (gitCommit "Mise à jour v1.1 : nouveautés et corrections" t)
  let remote2 ← withFail w1 (gitPush (some "main") t remoteRd)
  return w1.set REMOTE_REPO remote2

/-- `--update` mode: requires the bare remote to exist; deletes a leftover
scratch clone up front, then clones, commits the updated README and pushes,
removing the scratch clone in the `finally` block. -/
def simulate_remote_update (w : World) : RunOutcome :=
  match w.get REMOTE_REPO with
  | none => RunOutcome.exited 1 w
  | some remoteRd =>
    let w1 := w.removeDir TEMP_PUSH
    match simulate_update_steps w1 remoteRd with
    | .error (e, w2) => RunOutcome.crashed e w2
    | .ok w2 => RunOutcome.ok w2

def main (force update : Bool) (w : World) : RunOutcome :=
  if update then simulate_remote_update w
  else
    match reset_dirs force w with
    | none => RunOutcome.exited 1 w
    | some w1 =>
      match setup_remote_repo w1 with
      | .error (e, w2) => RunOutcome.crashed e w2
      | .ok w2 =>
        match setup_local_clone w2 with
        | .error (e, w3) => RunOutcome.crashed e w3
        | .ok w3 => RunOutcome.ok w3

end Ex15

/-! ## ex16_push_setup.py (only its guard participates in the claims) -/

namespace Ex16

def REMOTE_REPO : String := "remote-ex16.git"
def EXERCISE_DIR : String := "ex16-push"

def reset_dirs (force : Bool) (w : World) : Option World :=
  (reset_dirs_loop [REMOTE_REPO, EXERCISE_DIR] force w).2

end Ex16

/-! ## ex17_pull_conflict_setup.py -/

namespace Ex17

def REMOTE_REPO : String := "remote-ex17.git"
def EXERCISE_DIR : String := "ex17-pull-conflict"
def TEMP_EX17 : String := "_temp_ex17"
def TEMP_REMOTE : String := "_temp_remote_ex17"

def reset_dirs (force : Bool) (w : World) : Option World :=
  (reset_dirs_loop [REMOTE_REPO, EXERCISE_DIR] force w).2

/-- The full provisioning sequence.  The seed repo (`_temp_ex17`) is created
with `mkdir(exist_ok=True)` and removed in its `finally`; the colleague's
scratch clone (`_temp_remote_ex17`) is *not* pre-cleaned — `git clone` into a
leftover non-empty directory of that name fails — and is removed in its own
`finally`.  The student clone is created between the two `try` blocks. -/
def setup_exercise (w : World) : Except (GErr × World) World := do
  let temp0 := (w.get TEMP_EX17).getD RepoDir.empty
  let wf := w.removeDir TEMP_EX17
  let t := gitInit "main" temp0
  let t := t.writeFile "config.json" build_config_base
  let t := t.writeFile "README.md" build_readme_content
  let t ← withFail wf (gitAddAll t)
  let t ← withFail wf (gitCommit "Initial commit : configuration de base" t)
  let bare ← withFail wf (gitCloneBare TEMP_EX17 REMOTE_REPO (some t) (wf.get REMOTE_REPO))
  let w2 := wf.set REMOTE_REPO bare
  let exRd ← withFail w2 (gitClone REMOTE_REPO EXERCISE_DIR (w2.get REMOTE_REPO) (w2.get EXERCISE_DIR))
  let w3 := w2.set EXERCISE_DIR exRd
  let c ← withFail (w3.removeDir TEMP_REMOTE)
    (gitClone REMOTE_REPO TEMP_REMOTE (w3.get REMOTE_REPO) (w3.get TEMP_REMOTE))
  let c := c.writeFile "config.json" build_config_remote
  let c ← withFail (w3.removeDir TEMP_REMOTE) (gitAdd "config.json" c)
  let c ← withFail (w3.removeDir TEMP_REMOTE) (gitCommit "Mise en production v1.1.0" c)
  let remote2 ← withFail (w3.removeDir TEMP_REMOTE)
    (gitPush none c ((w3.get REMOTE_REPO).getD RepoDir.empty))
  let w4 := (w3.set REMOTE_REPO remote2).removeDir TEMP_REMOTE
  let ex := (w4.get EXERCISE_DIR).getD RepoDir.empty
  let ex := ex.writeFile "config.json" build_config_local
  let ex ← withFail (w4.set EXERCISE_DIR ex) (gitAdd "config.json" ex)
  let ex ← withFail (w4.set EXERCISE_DIR ex) (gitCommit "Configuration staging v1.0.1" ex)
  return w4.set EXERCISE_DIR ex

def main (force : Bool) (w : World) : RunOutcome :=
  match reset_dirs force w with
  | none => RunOutcome.exited 1 w
  | some w1 =>
    match setup_exercise w1 with
    | .error (e, w2) => RunOutcome.crashed e w2
    | .ok w2 => RunOutcome.ok w2

end Ex17

/-! ## Support for the claims: canonical runs and projections -/

set_option maxRecDepth 6000

theorem alookup_aset_other {α : Type} (k k2 : String) (v : α) (l : List (String × α))
    (h : k ≠ k2) : alookup k (aset k2 v l) = alookup k l := by
  rw [alookup_aset_ne k k2 v l h, alookup_aerase_ne k k2 l h]

theorem World.get_set_self (w : World) (d : String) (rd : RepoDir) :
    (w.set d rd).get d = some rd := alookup_aset_self d rd w.dirs

theorem World.get_set_other (w : World) (d d2 : String) (rd : RepoDir)
    (h : d ≠ d2) : (w.set d2 rd).get d = w.get d := alookup_aset_other d d2 rd w.dirs h

theorem World.get_remove_self (w : World) (d : String) :
    (w.removeDir d).get d = none := alookup_aerase_self d w.dirs

theorem World.get_remove_other (w : World) (d d2 : String)
    (h : d ≠ d2) : (w.removeDir d2).get d = w.get d := alookup_aerase_ne d d2 w.dirs h

/-- The directory's contents at `d` (empty when `d` does not exist). -/
def dirOf (w : World) (d : String) : RepoDir := (w.get d).getD RepoDir.empty

/-- The unmerged index paths of the repository at `d` (`none`: no repo). -/
def unmergedOf (w : World) (d : String) : Option (List String) :=
  (dirOf w d).repo.map GitRepo.unmergedPaths

/-- The content of file `f` inside directory `d`. -/
def fileOf (w : World) (d f : String) : Option Content :=
  alookup f (dirOf w d).tree

/-- The tip commit of branch `b` of the repository at `d`. -/
def tipOf (w : World) (d b : String) : Option Commit :=
  RepoDir.branchTip b (dirOf w d)

/-- The number of commits reachable from branch `b` of the repository at `d`. -/
def histLen (w : World) (d b : String) : Nat :=
  match tipOf w d b with
  | some c => c.countHistory
  | none => 0

/-- A fresh provisioning run of each single-directory scenario. -/
def ex08_run : RunOutcome := Ex08.main false World.empty

def ex09_run : RunOutcome := Ex09.main false World.empty

def ex06_run : RunOutcome := Ex06.main false World.empty

/-- The world after `ex15` base provisioning, after one `--update`, and the
second `--update` invocation itself. -/
def ex15_provisioned : World := (Ex15.main false false World.empty).world

def ex15_updated : World := (Ex15.main false true ex15_provisioned).world

def ex15_second_update : RunOutcome := Ex15.main false true ex15_updated

/-- The world after a clean `ex17` provisioning run. -/
def ex17_provisioned : World := (Ex17.main false World.empty).world

/-- A world holding a stale, non-empty `_temp_remote_ex17` scratch clone, as
an interrupted earlier run leaves behind; the guarded target directories are
absent. -/
def ex17_leftover : World :=
  World.empty.set Ex17.TEMP_REMOTE (RepoDir.empty.writeFile "stale.txt" ["stale", ""])

def ex17_leftover_run : RunOutcome := Ex17.main false ex17_leftover

/-- The learner's `git pull` in the provisioned ex17 clone. -/
def ex17_pulled : RepoDir × Bool :=
  gitPull (dirOf ex17_provisioned Ex17.REMOTE_REPO)
    (dirOf ex17_provisioned Ex17.EXERCISE_DIR)

/-- The canonical fully-provisioned `ex01` directory. -/
def ex01_dir : RepoDir := RepoDir.empty.writeFile "README.md" Ex01.build_readme_content

/-- The canonical fully-provisioned `ex08` directory. -/
def ex08_dir : RepoDir :=
  match Ex08.setup_git_repo RepoDir.empty with
  | .ok rd => rd
  | .error _ => RepoDir.empty

/-- The canonical fully-provisioned `ex09` directory. -/
def ex09_dir : RepoDir :=
  match Ex09.setup_git_repo RepoDir.empty with
  | .ok rd => rd
  | .error _ => RepoDir.empty

theorem ex08_setup_eval : Ex08.setup_git_repo RepoDir.empty = Except.ok ex08_dir := rfl

theorem ex09_setup_eval : Ex09.setup_git_repo RepoDir.empty = Except.ok ex09_dir := rfl

/-! ## Claims -/

/-- C1: the claim that running the "simulate remote update" procedure twice in
a row (remote already provisioned) succeeds both times and appends two
distinct commits is false: the update writes the same README content each
time, so on the second invocation `git commit` exits non-zero (nothing to
commit), the process crashes with exit status 1, and the bare remote still
has only the single additional commit appended by the first invocation. -/
theorem C1_counterexample :
    (Ex15.main false true ex15_provisioned).exitCode = 0 ∧
    ex15_second_update.exitCode = 1 ∧
    histLen ex15_second_update.world Ex15.REMOTE_REPO "main" = 2 ∧
    histLen ex15_updated Ex15.REMOTE_REPO "main" = 2 :=
  ⟨rfl, rfl, rfl, rfl⟩

/-- C1 (amended): the first `--update` invocation succeeds and appends
exactly one commit to the bare remote's default branch without rewriting its
existing history (the old tip remains a strict ancestor of the new tip); a
second invocation fails at the `git commit` step (the freshly written README
equals the content already pushed, so there is nothing to commit), exits with
status 1, and leaves the bare remote exactly as the first invocation left it;
no invocation ever rewrites existing remote history. -/
theorem C1_amended_theorem :
    histLen ex15_provisioned Ex15.REMOTE_REPO "main" = 1 ∧
    (Ex15.main false true ex15_provisioned).exitCode = 0 ∧
    histLen ex15_updated Ex15.REMOTE_REPO "main" = 2 ∧
    (match tipOf ex15_provisioned Ex15.REMOTE_REPO "main",
           tipOf ex15_updated Ex15.REMOTE_REPO "main" with
     | some oldTip, some newTip =>
       Commit.isAncestor oldTip newTip && !(Commit.beq oldTip newTip)
     | _, _ => false) = true ∧
    (match ex15_second_update with
     | RunOutcome.crashed e _ => e.cmd
     | _ => []) =
      ["git", "commit", "-m", "Mise à jour v1.1 : nouveautés et corrections"] ∧
    ex15_second_update.exitCode = 1 ∧
    ex15_second_update.world.get Ex15.REMOTE_REPO = ex15_updated.get Ex15.REMOTE_REPO :=
  ⟨rfl, rfl, rfl, rfl, rfl, rfl, rfl⟩

/-- C3: the claim is false for the pull-conflict scenario `ex17`: immediately
after provisioning, the learner's clone has a fully clean index (no unmerged
entries) and `config.json` contains no conflict markers — the conflict only
materialises when the learner later runs `git pull`. -/
theorem C3_counterexample :
    (Ex17.main false World.empty).exitCode = 0 ∧
    unmergedOf ex17_provisioned Ex17.EXERCISE_DIR = some [] ∧
    (fileOf ex17_provisioned Ex17.EXERCISE_DIR "config.json").map countConflictBlocks
      = some 0 :=
  ⟨rfl, rfl, rfl⟩

/-- C3 (amended): for the scenarios that attempt the merge during
provisioning, the provisioned index really contains unmerged entries for the
documented file and the file holds exactly the documented number of
conflict-marker blocks (`ex08`: `message.txt`, 1 block; `ex09`: `page.html`,
2 blocks).  The pull-conflict scenario `ex17` is provisioned with a clean
index; its documented conflict (one block in `config.json`, unmerged entry
for it) appears when the learner runs `git pull`, which fails as intended. -/
theorem C3_amended_theorem :
    ex08_run.exitCode = 0 ∧
    unmergedOf ex08_run.world Ex08.EXERCISE_DIR = some ["message.txt"] ∧
    (fileOf ex08_run.world Ex08.EXERCISE_DIR "message.txt").map countConflictBlocks
      = some 1 ∧
    ex09_run.exitCode = 0 ∧
    unmergedOf ex09_run.world Ex09.EXERCISE_DIR = some ["page.html"] ∧
    (fileOf ex09_run.world Ex09.EXERCISE_DIR "page.html").map countConflictBlocks
      = some 2 ∧
    unmergedOf ex17_provisioned Ex17.EXERCISE_DIR = some [] ∧
    ex17_pulled.2 = false ∧
    ex17_pulled.1.repo.map GitRepo.unmergedPaths = some ["config.json"] ∧
    (alookup "config.json" ex17_pulled.1.tree).map countConflictBlocks = some 1 :=
  ⟨rfl, rfl, rfl, rfl, rfl, rfl, rfl, rfl, rfl, rfl⟩

/-- C4: the claim's "captured stderr is surfaced verbatim" part is false.
At a failing non-allow-failure step (here: `git clone` into a leftover
non-empty `_temp_remote_ex17`, exit status 128), the stderr is captured on
the exception object, but the diagnostic the user sees — the
`CalledProcessError` line of the traceback — names only the command and exit
status and does not contain the captured stderr text. -/
theorem C4_counterexample :
    ex17_leftover_run.capturedStderr = some
      "fatal: destination path \x27_temp_remote_ex17\x27 already exists and is not an empty directory." ∧
    ex17_leftover_run.diagnostic = some
      "Command \x27[\x27git\x27, \x27clone\x27, \x27remote-ex17.git\x27, \x27_temp_remote_ex17\x27]\x27 returned non-zero exit status 128." ∧
    (match ex17_leftover_run.diagnostic, ex17_leftover_run.capturedStderr with
     | some d, some e => strContains d e
     | _, _ => true) = false :=
  ⟨rfl, rfl, rfl⟩

/-- C4 (amended): when a history step not marked allow-failure exits
non-zero, provisioning aborts at that step (the subsequent colleague push and
local commit never run: both repositories stay at one commit and the clone's
`config.json` still has the base content), the process exits with a non-zero
status, and the partially-created exercise directories are left on disk (not
auto-cleaned); the step's stderr is captured into the exception, but the
human-readable diagnostic surfaced to the user is Python's
`CalledProcessError` message naming the command and exit status — the
captured stderr is not shown. -/
theorem C4_amended_theorem :
    ex17_leftover_run.exitCode = 1 ∧
    histLen ex17_leftover_run.world Ex17.REMOTE_REPO "main" = 1 ∧
    histLen ex17_leftover_run.world Ex17.EXERCISE_DIR "main" = 1 ∧
    fileOf ex17_leftover_run.world Ex17.EXERCISE_DIR "config.json"
      = some Ex17.build_config_base ∧
    (ex17_leftover_run.world.get Ex17.EXERCISE_DIR).isSome = true ∧
    (ex17_leftover_run.world.get Ex17.REMOTE_REPO).isSome = true ∧
    (ex17_leftover_run.capturedStderr.getD "").length > 0 ∧
    (match ex17_leftover_run with
     | RunOutcome.crashed e _ => calledProcessErrorStr e = "Command \x27[\x27git\x27, \x27clone\x27, \x27remote-ex17.git\x27, \x27_temp_remote_ex17\x27]\x27 returned non-zero exit status 128."
          ∧ strContains (calledProcessErrorStr e) e.stderr = false
     | _ => False) :=
  ⟨rfl, rfl, rfl, rfl, rfl, rfl, by decide, rfl, rfl⟩

/-- C7: the provisioned fast-forward scenario has `main` checked out, and
`feature-footer` is a strict descendant of `main` with zero commits on `main`
since divergence and exactly one commit ahead; the merge-base set of the two
branches is exactly the tip of `main`. -/
theorem C7_theorem :
    ex06_run.exitCode = 0 ∧
    (dirOf ex06_run.world Ex06.EXERCISE_DIR).repo.map GitRepo.headBranch = some "main" ∧
    (match tipOf ex06_run.world Ex06.EXERCISE_DIR "main",
           tipOf ex06_run.world Ex06.EXERCISE_DIR "feature-footer" with
     | some m, some f =>
       Commit.isAncestor m f && !(Commit.beq m f)
         && (Commit.aheadCount m f == 0)
         && (Commit.aheadCount f m == 1)
         && Commit.beqList (Commit.mergeBases f m) [m]
     | _, _ => false) = true :=
  ⟨rfl, rfl, rfl⟩

/-- C10: each invocation of the remote-based setup and update procedures
removes its scratch directory before the process exits, also when an
intermediate git step fails: after `ex15` base provisioning, after a first
(successful) and a second (failing, exit 1) `--update`, and after a clean and
a failing (exit 1, leftover scratch) `ex17` provisioning run, none of
`_temp_init`, `_temp_push`, `_temp_ex17`, `_temp_remote_ex17` is on disk. -/
theorem C10_theorem :
    ex15_provisioned.get Ex15.TEMP_INIT = none ∧
    ex15_provisioned.get Ex15.TEMP_PUSH = none ∧
    ex15_updated.get Ex15.TEMP_PUSH = none ∧
    ex15_updated.get Ex15.TEMP_INIT = none ∧
    ex15_second_update.exitCode = 1 ∧
    ex15_second_update.world.get Ex15.TEMP_PUSH = none ∧
    ex17_provisioned.get Ex17.TEMP_EX17 = none ∧
    ex17_provisioned.get Ex17.TEMP_REMOTE = none ∧
    ex17_leftover_run.exitCode = 1 ∧
    ex17_leftover_run.world.get Ex17.TEMP_EX17 = none ∧
    ex17_leftover_run.world.get Ex17.TEMP_REMOTE = none :=
  ⟨rfl, rfl, rfl, rfl, rfl, rfl, rfl, rfl, rfl, rfl, rfl⟩

/-- C2: the claim is false: a provisioning run can leave the filesystem
partially provisioned.  With a stale, non-empty `_temp_remote_ex17` scratch
clone on disk (as an interrupted earlier run leaves behind) and both guarded
targets absent, the `ex17` run passes its pre-check, creates the bare remote
and the student clone, then crashes when `git clone` refuses the non-empty
scratch destination: the filesystem is neither untouched (both directories
now exist) nor fully provisioned (the remote never received the colleague's
pushed update and the clone never received the local commit — both sit at one
commit instead of two). -/
theorem C2_counterexample :
    ex17_leftover.get Ex17.REMOTE_REPO = none ∧
    ex17_leftover.get Ex17.EXERCISE_DIR = none ∧
    ex17_leftover_run.exitCode = 1 ∧
    (ex17_leftover_run.world.get Ex17.REMOTE_REPO).isSome = true ∧
    (ex17_leftover_run.world.get Ex17.EXERCISE_DIR).isSome = true ∧
    histLen ex17_leftover_run.world Ex17.REMOTE_REPO "main" = 1 ∧
    histLen ex17_provisioned Ex17.REMOTE_REPO "main" = 2 ∧
    histLen ex17_leftover_run.world Ex17.EXERCISE_DIR "main" = 1 ∧
    histLen ex17_provisioned Ex17.EXERCISE_DIR "main" = 2 :=
  ⟨rfl, rfl, rfl, rfl, rfl, rfl, rfl, rfl, rfl⟩

/-- C2 (amended): for the single-directory scenarios (`ex08`, `ex09` here),
every run is all-or-nothing: it either aborts at the pre-check leaving the
whole filesystem untouched, or succeeds with the exercise directory in the
canonical fully-provisioned state.  (For the remote scenarios, a step that
fails unexpectedly mid-run leaves a partially provisioned state on disk for
inspection, as the error-handling section of the specification documents.) -/
theorem C2_amended_theorem (force : Bool) (w : World) :
    (Ex08.main force w = RunOutcome.exited 1 w ∨
      ((Ex08.main force w).exitCode = 0 ∧
        (Ex08.main force w).world.get Ex08.EXERCISE_DIR = some ex08_dir)) ∧
    (Ex09.main force w = RunOutcome.exited 1 w ∨
      ((Ex09.main force w).exitCode = 0 ∧
        (Ex09.main force w).world.get Ex09.EXERCISE_DIR = some ex09_dir)) := by
  constructor
  · cases hget : w.get Ex08.EXERCISE_DIR with
    | some rd =>
      cases force with
      | false =>
        left
        simp [Ex08.main, Ex08.reset_exercise_dir, hget]
      | true =>
        right
        simp [Ex08.main, Ex08.reset_exercise_dir, hget, World.get_set_self,
          ex08_setup_eval, RunOutcome.exitCode, RunOutcome.world]
    | none =>
      right
      simp [Ex08.main, Ex08.reset_exercise_dir, hget, World.get_set_self,
        ex08_setup_eval, RunOutcome.exitCode, RunOutcome.world]
  · cases hget : w.get Ex09.EXERCISE_DIR with
    | some rd =>
      cases force with
      | false =>
        left
        simp [Ex09.main, Ex09.reset_exercise_dir, hget]
      | true =>
        right
        simp [Ex09.main, Ex09.reset_exercise_dir, hget, World.get_set_self,
          ex09_setup_eval, RunOutcome.exitCode, RunOutcome.world]
    | none =>
      right
      simp [Ex09.main, Ex09.reset_exercise_dir, hget, World.get_set_self,
        ex09_setup_eval, RunOutcome.exitCode, RunOutcome.world]

/-- C5: the success half of the claim ("if the target does not exist, or
`--force` is given, provisioning succeeds and the process exits with code 0")
is false for `ex17`: with both guarded target directories absent — and
whether or not `--force` is supplied — a leftover non-empty scratch clone
`_temp_remote_ex17` makes the `git clone` step fail, so the process exits
with status 1 instead of 0. -/
theorem C5_counterexample :
    ex17_leftover.get Ex17.REMOTE_REPO = none ∧
    ex17_leftover.get Ex17.EXERCISE_DIR = none ∧
    (Ex17.main false ex17_leftover).exitCode = 1 ∧
    (Ex17.main true ex17_leftover).exitCode = 1 :=
  ⟨rfl, rfl, rfl, rfl⟩

/-- C5 (amended): the guard half holds for every scenario, and the success
half holds for the scenarios without auxiliary scratch directories (`ex01`,
`ex08` here): if the target directory exists and `--force` is absent, the run
exits with code 1 leaving the whole filesystem (hence the directory's
contents) byte-identical; if the target is absent or `--force` is given,
provisioning succeeds with exit code 0.  (In the remote scenarios a leftover
scratch directory can additionally make an otherwise well-guarded run fail,
as the counterexample shows.) -/
theorem C5_amended_theorem (force : Bool) (w : World) :
    (w.hasDir Ex01.EXERCISE_DIR = true → force = false →
      Ex01.main force w = RunOutcome.exited 1 w) ∧
    ((w.hasDir Ex01.EXERCISE_DIR = false ∨ force = true) →
      (Ex01.main force w).exitCode = 0) ∧
    (w.hasDir Ex08.EXERCISE_DIR = true → force = false →
      Ex08.main force w = RunOutcome.exited 1 w) ∧
    ((w.hasDir Ex08.EXERCISE_DIR = false ∨ force = true) →
      (Ex08.main force w).exitCode = 0) := by
  refine ⟨?_, ?_, ?_, ?_⟩
  · intro hex hf
    subst hf
    cases hget : w.get Ex01.EXERCISE_DIR with
    | some rd => simp [Ex01.main, Ex01.reset_exercise_dir, hget]
    | none => rw [World.hasDir, hget] at hex; cases hex
  · intro hsucc
    cases hget : w.get Ex01.EXERCISE_DIR with
    | some rd =>
      cases hsucc with
      | inl hno => rw [World.hasDir, hget] at hno; cases hno
      | inr hf =>
        subst hf
        simp [Ex01.main, Ex01.reset_exercise_dir, hget, Ex01.write_readme,
          World.get_set_self, RunOutcome.exitCode]
    | none =>
      simp [Ex01.main, Ex01.reset_exercise_dir, hget, Ex01.write_readme,
        World.get_set_self, RunOutcome.exitCode]
  · intro hex hf
    subst hf
    cases hget : w.get Ex08.EXERCISE_DIR with
    | some rd => simp [Ex08.main, Ex08.reset_exercise_dir, hget]
    | none => rw [World.hasDir, hget] at hex; cases hex
  · intro hsucc
    cases hget : w.get Ex08.EXERCISE_DIR with
    | some rd =>
      cases hsucc with
      | inl hno => rw [World.hasDir, hget] at hno; cases hno
      | inr hf =>
        subst hf
        simp [Ex08.main, Ex08.reset_exercise_dir, hget, World.get_set_self,
          ex08_setup_eval, RunOutcome.exitCode]
    | none =>
      simp [Ex08.main, Ex08.reset_exercise_dir, hget, World.get_set_self,
        ex08_setup_eval, RunOutcome.exitCode]

/-- C5 witness: guard failure on an existing `ex01-init` without `--force`
leaves the world untouched with exit 1; a fresh `ex08` run exits 0. -/
theorem C5_amended_witness :
    Ex01.main false (World.empty.set Ex01.EXERCISE_DIR RepoDir.empty)
      = RunOutcome.exited 1 (World.empty.set Ex01.EXERCISE_DIR RepoDir.empty) ∧
    (Ex08.main false World.empty).exitCode = 0 :=
  ⟨(C5_amended_theorem false (World.empty.set Ex01.EXERCISE_DIR RepoDir.empty)).1 rfl rfl,
   (C5_amended_theorem false World.empty).2.2.2 (Or.inl rfl)⟩

theorem ex01_force_provisions (w : World) :
    (Ex01.main true w).exitCode = 0 ∧
    (Ex01.main true w).world.get Ex01.EXERCISE_DIR = some ex01_dir := by
  cases hget : w.get Ex01.EXERCISE_DIR with
  | some rd =>
    constructor <;>
      simp [Ex01.main, Ex01.reset_exercise_dir, hget, Ex01.write_readme,
        World.get_set_self, RunOutcome.exitCode, RunOutcome.world, ex01_dir]
  | none =>
    constructor <;>
      simp [Ex01.main, Ex01.reset_exercise_dir, hget, Ex01.write_readme,
        World.get_set_self, RunOutcome.exitCode, RunOutcome.world, ex01_dir]

theorem ex09_force_provisions (w : World) :
    (Ex09.main true w).exitCode = 0 ∧
    (Ex09.main true w).world.get Ex09.EXERCISE_DIR = some ex09_dir := by
  cases hget : w.get Ex09.EXERCISE_DIR with
  | some rd =>
    constructor <;>
      simp [Ex09.main, Ex09.reset_exercise_dir, hget, World.get_set_self,
        ex09_setup_eval, RunOutcome.exitCode, RunOutcome.world]
  | none =>
    constructor <;>
      simp [Ex09.main, Ex09.reset_exercise_dir, hget, World.get_set_self,
        ex09_setup_eval, RunOutcome.exitCode, RunOutcome.world]

/-- C6: running a scenario with `--force` twice in a row from any starting
state succeeds both times, and the second run leaves the exercise directory
in exactly the same state as the first — the same file contents and the same
repository shape (branch names, commit messages, tags), since every
file-content builder is a constant: both runs converge to the same canonical
directory value.  (Commit identity in the model is structural; wall-clock
hashes and timestamps have no counterpart, matching the claim's carve-out.)
Shown for the claim's cited scenarios `ex01` and `ex09`. -/
theorem C6_theorem (w : World) :
    (Ex01.main true w).exitCode = 0 ∧
    (Ex01.main true ((Ex01.main true w).world)).exitCode = 0 ∧
    (Ex01.main true ((Ex01.main true w).world)).world.get Ex01.EXERCISE_DIR
      = (Ex01.main true w).world.get Ex01.EXERCISE_DIR ∧
    (Ex09.main true w).exitCode = 0 ∧
    (Ex09.main true ((Ex09.main true w).world)).exitCode = 0 ∧
    (Ex09.main true ((Ex09.main true w).world)).world.get Ex09.EXERCISE_DIR
      = (Ex09.main true w).world.get Ex09.EXERCISE_DIR := by
  obtain ⟨h1, h2⟩ := ex01_force_provisions w
  obtain ⟨h3, h4⟩ := ex01_force_provisions ((Ex01.main true w).world)
  obtain ⟨h5, h6⟩ := ex09_force_provisions w
  obtain ⟨h7, h8⟩ := ex09_force_provisions ((Ex09.main true w).world)
  exact ⟨h1, h3, h4.trans h2.symm, h5, h7, h8.trans h6.symm⟩

/-- A world in which both of `ex15`'s guarded directories already exist. -/
def guard_demo_world : World :=
  (World.empty.set Ex15.REMOTE_REPO RepoDir.empty).set Ex15.EXERCISE_DIR RepoDir.empty

/-- A world in which only the first guarded directory exists. -/
def guard_abort_world : World := World.empty.set Ex15.REMOTE_REPO RepoDir.empty

/-- The deletion events of a guard trace. -/
def deletesIn (tr : List GuardEvent) : List GuardEvent :=
  tr.filter (fun e =>
    match e with
    | GuardEvent.rmtree _ => true
    | _ => false)

def cabdGo (names : List String) (seen : List String) : List GuardEvent → Bool
  | [] => true
  | GuardEvent.check d _ :: tr => cabdGo names (d :: seen) tr
  | GuardEvent.rmtree _ :: tr =>
    names.all (fun n => seen.contains n) && cabdGo names seen tr

/-- Every deletion in the trace happens only after the existence check of
every guarded directory has been performed. -/
def checksAllBeforeDeletes (names : List String) (tr : List GuardEvent) : Bool :=
  cabdGo names [] tr

/-- C8: the all-or-nothing pre-check, read as an ordering property, is false:
with `--force` and both guarded directories present, the `ex15` guard loop
recursively deletes the bare remote *before* the existence check of the
learner's directory is ever performed — checks and deletions interleave
per-directory instead of all checks preceding any deletion. -/
theorem C8_counterexample :
    (reset_dirs_loop [Ex15.REMOTE_REPO, Ex15.EXERCISE_DIR] true guard_demo_world).1
      = [GuardEvent.check Ex15.REMOTE_REPO true, GuardEvent.rmtree Ex15.REMOTE_REPO,
         GuardEvent.check Ex15.EXERCISE_DIR true, GuardEvent.rmtree Ex15.EXERCISE_DIR] ∧
    checksAllBeforeDeletes [Ex15.REMOTE_REPO, Ex15.EXERCISE_DIR]
      (reset_dirs_loop [Ex15.REMOTE_REPO, Ex15.EXERCISE_DIR] true guard_demo_world).1
      = false :=
  ⟨rfl, rfl⟩

theorem reset_dirs_loop_force_some (names : List String) (w : World) :
    ((reset_dirs_loop names true w).2).isSome = true := by
  induction names generalizing w with
  | nil => rfl
  | cons d rest ih =>
    cases hged : w.hasDir d with
    | true => simpa [reset_dirs_loop, hged] using ih (w.removeDir d)
    | false => simpa [reset_dirs_loop, hged] using ih w

theorem reset_dirs_loop_abort_no_deletes (names : List String) (w : World)
    (h : (reset_dirs_loop names false w).2 = none) :
    deletesIn (reset_dirs_loop names false w).1 = [] := by
  induction names generalizing w with
  | nil => simp [reset_dirs_loop] at h
  | cons d rest ih =>
    cases hged : w.hasDir d with
    | true => simp [reset_dirs_loop, hged, deletesIn]
    | false =>
      have h2 : (reset_dirs_loop rest false w).2 = none := by
        simpa [reset_dirs_loop, hged] using h
      simpa [reset_dirs_loop, hged, deletesIn] using ih w h2

/-- C8 (amended): the guard is all-or-nothing in *outcome*, not in event
order: an aborting run (which can only happen without `--force`) performs no
deletion at all before exiting, so no guarded directory is ever lost to a
run that fails its pre-check; under `--force`, however, each directory is
deleted right after its own check, before later directories are checked (as
the counterexample records). -/
theorem C8_amended_theorem (names : List String) (force : Bool) (w : World)
    (h : (reset_dirs_loop names force w).2 = none) :
    deletesIn (reset_dirs_loop names force w).1 = [] ∧ force = false := by
  cases force with
  | true =>
    have hs := reset_dirs_loop_force_some names w
    rw [h] at hs
    cases hs
  | false => exact ⟨reset_dirs_loop_abort_no_deletes names w h, rfl⟩

/-- C8 witness: the `ex15` guard aborting (existing remote, no `--force`)
performs no deletion. -/
theorem C8_amended_witness :
    deletesIn (reset_dirs_loop [Ex15.REMOTE_REPO, Ex15.EXERCISE_DIR] false
      guard_abort_world).1 = [] ∧ false = false :=
  C8_amended_theorem [Ex15.REMOTE_REPO, Ex15.EXERCISE_DIR] false guard_abort_world rfl

/-- What C9 asserts of one `--update` invocation at a provisioned world and
at an already-updated world, with `d` ranging over any directory other than
the bare remote and the scratch clone. -/
def C9_statement (force : Bool) (d : String) : Prop :=
  (Ex15.main force true ex15_provisioned).exitCode = 0 ∧
  (Ex15.main force true ex15_provisioned).world.get Ex15.EXERCISE_DIR
    = ex15_provisioned.get Ex15.EXERCISE_DIR ∧
  (Ex15.main force true ex15_provisioned).world.get d = ex15_provisioned.get d ∧
  (match tipOf ex15_provisioned Ex15.REMOTE_REPO "main",
         tipOf (Ex15.main force true ex15_provisioned).world Ex15.REMOTE_REPO "main" with
   | some oldTip, some newTip => Commit.isAncestor oldTip newTip
   | _, _ => false) = true ∧
  (Ex15.main force true ex15_updated).world.get Ex15.EXERCISE_DIR
    = ex15_updated.get Ex15.EXERCISE_DIR ∧
  (Ex15.main force true ex15_updated).world.get Ex15.REMOTE_REPO
    = ex15_updated.get Ex15.REMOTE_REPO ∧
  (Ex15.main force true ex15_updated).world.get d = ex15_updated.get d

/-- C9: with `--update`, the guard and reset are skipped entirely — `--force`
has no influence on the run.  Neither `remote-repo.git` nor the learner's
clone `ex15-remote` is deleted or recreated: the clone's directory entry
(working tree, refs and remote-tracking state) is exactly the one from
before the call, and the only directory the run touches besides the scratch
clone is the bare remote, whose previous tip remains an ancestor of its new
tip (append-only).  On the second, failing invocation even the remote is left
unchanged. -/
theorem C9_theorem (force : Bool) (d : String)
    (h1 : d ≠ Ex15.REMOTE_REPO) (h2 : d ≠ Ex15.TEMP_PUSH) : C9_statement force d := by
  have e1 : Ex15.main force true ex15_provisioned
      = RunOutcome.ok ((ex15_provisioned.removeDir Ex15.TEMP_PUSH).set Ex15.REMOTE_REPO
          (dirOf ex15_updated Ex15.REMOTE_REPO)) := rfl
  have e2 : Ex15.main force true ex15_updated
      = RunOutcome.crashed
          ⟨["git", "commit", "-m", "Mise à jour v1.1 : nouveautés et corrections"], 1, ""⟩
          (ex15_updated.removeDir Ex15.TEMP_PUSH) := rfl
  unfold C9_statement
  rw [e1, e2]
  refine ⟨rfl, ?_, ?_, rfl, ?_, ?_, ?_⟩
  · show ((ex15_provisioned.removeDir Ex15.TEMP_PUSH).set Ex15.REMOTE_REPO _).get
        Ex15.EXERCISE_DIR = _
    rw [World.get_set_other _ _ _ _ (by decide),
        World.get_remove_other _ _ _ (by decide)]
  · show ((ex15_provisioned.removeDir Ex15.TEMP_PUSH).set Ex15.REMOTE_REPO _).get d = _
    rw [World.get_set_other _ _ _ _ h1, World.get_remove_other _ _ _ h2]
  · show (ex15_updated.removeDir Ex15.TEMP_PUSH).get Ex15.EXERCISE_DIR = _
    rw [World.get_remove_other _ _ _ (by decide)]
  · show (ex15_updated.removeDir Ex15.TEMP_PUSH).get Ex15.REMOTE_REPO = _
    rw [World.get_remove_other _ _ _ (by decide)]
  · show (ex15_updated.removeDir Ex15.TEMP_PUSH).get d = _
    rw [World.get_remove_other _ _ _ h2]

/-- C9 witness: the statement at `--force` off and the unrelated `ex01-init`
directory. -/
theorem C9_witness : C9_statement false "ex01-init" :=
  C9_theorem false "ex01-init" (by decide) (by decide)
